import Mathlib

/-!
Verification of `imap2eml.py`, a single-file IMAP-to-EML export tool.

The Python source is shallowly embedded: the pure string helpers are
translated directly, and the IMAP/filesystem side effects are modelled by
an oracle (`World`) giving the outcome of every external call, with the
program's behaviour captured as the trace of events (protocol calls,
directory creations, file writes, printed reports) it performs.
-/

namespace Imap2Eml

/-- A byte string payload (the raw RFC822 bytes of one message). -/
abbrev Bytes := List Nat

/-- A Python exception value as far as this program can observe it:
whether it is an `imaplib.IMAP4.error` (the only subclass the code
distinguishes) and its text (`str(e)`). -/
structure PyErr where
  imapError : Bool
  text : String
deriving DecidableEq

/-- Python's `c.isalnum()` for a single character, modelled exactly on the
code points U+0000..U+00FF (ASCII letters and digits; the Latin-1 ordinal
indicators, micro sign, superscripts and vulgar fractions; the Latin-1
letters, excluding the multiplication and division signs).  Code points
above U+00FF are conservatively classified as non-alphanumeric; none of
the theorems below depend on the classification outside Latin-1. -/
def py_isalnum (c : Char) : Bool :=
  let v := c.toNat
  (65 ≤ v && v ≤ 90) || (97 ≤ v && v ≤ 122) || (48 ≤ v && v ≤ 57) ||
  (v == 0xAA || v == 0xB2 || v == 0xB3 || v == 0xB5 || v == 0xB9 || v == 0xBA ||
   v == 0xBC || v == 0xBD || v == 0xBE) ||
  (0xC0 ≤ v && v ≤ 0xFF && !(v == 0xD7) && !(v == 0xF7))

/-- One character of `sanitize_filename`: `c if c.isalnum() else "_"`. -/
def sanChar (c : Char) : Char := if py_isalnum c then c else '_'

/-- `sanitize_filename(filename)`:
`"".join(c if c.isalnum() else "_" for c in filename)`. -/
def sanitize_filename (s : String) : String :=
  String.mk (s.data.map sanChar)

/-- Python's `c.isspace()` restricted to the ASCII whitespace characters
(space, tab, newline, vertical tab, form feed, carriage return) — exactly
the set `bytes.split()` splits on. -/
def py_isspace (c : Char) : Bool :=
  c == ' ' || c == '\t' || c == '\n' || c.toNat == 0x0B || c.toNat == 0x0C || c == '\r'

/-- Helper for `pySplit`: walks the characters, accumulating the current
token (reversed) and emitting it at each whitespace run or at the end. -/
def splitAux : List Char → List Char → List String
  | [], acc => if acc.isEmpty then [] else [String.mk acc.reverse]
  | c :: cs, acc =>
    if py_isspace c then
      (if acc.isEmpty then [] else [String.mk acc.reverse]) ++ splitAux cs []
    else splitAux cs (c :: acc)

/-- Python's `.split()` with no arguments: split on runs of whitespace,
discarding empty tokens. -/
def pySplit (s : String) : List String := splitAux s.data []

/-- Python's `.strip()` with no arguments: remove leading and trailing
whitespace. -/
def pyStrip (s : String) : String :=
  String.mk (((s.data.dropWhile py_isspace).reverse.dropWhile py_isspace).reverse)

/-- Python's `a or b` for strings: `b` when `a` is empty (falsy). -/
def pyOrDefault (a b : String) : String := if a = "" then b else a

/-! ## The external world

Every effectful call the program makes (imaplib, `email`, the
filesystem) is resolved against a fixed oracle.  `search` and `fetch`
responses are indexed by the currently selected mailbox, since the
underlying connection is stateful and the program always selects a
mailbox before searching or fetching in it.  Search data and mailbox
list entries are byte strings, modelled as `String` (the program only
ever decodes them as UTF-8 or splits them on ASCII whitespace). -/

/-- One element of the `msg_data` list returned by `mail.fetch`:
either a `(header_info, payload)` tuple or a bare byte string such as
`b")"`. -/
inductive FetchPart where
  | tup (info : String) (payload : Bytes)
  | bare (b : String)
deriving DecidableEq

/-- Oracle for every external call: `Except` results model Python
exceptions raised by the call. -/
structure World where
  /-- `imaplib.IMAP4_SSL(server, int(port))`. -/
  connectR : Except PyErr Unit
  /-- `mail.login(username, password)`. -/
  loginR : Except PyErr Unit
  /-- `mail.list()`: status and raw mailbox entries. -/
  listR : Except PyErr (String × List String)
  /-- `mail.select(mailbox)`: the status (the data part is unused). -/
  selectR : String → Except PyErr String
  /-- `mail.search(None, "ALL")` with the given mailbox selected:
  status and data list (the program uses `data[0]`). -/
  searchR : String → Except PyErr (String × List String)
  /-- `mail.fetch(num, "(RFC822)")` with the given mailbox selected. -/
  fetchR : String → String → Except PyErr (String × List FetchPart)
  /-- `email.message_from_bytes(payload, policy=policy.default)` followed by
  `msg.get("subject")`: the subject header if present, raising on a
  parse failure. -/
  subjectR : Bytes → Except PyErr (Option String)
  /-- `open(path, "wb")` / `f.write`: `some e` when writing to this path
  raises. -/
  openW : String → Option PyErr
  /-- `mail.logout()`. -/
  logoutR : Except PyErr Unit

/-- Observable actions of one run: protocol calls attempted, directories
made, files written, and lines printed. -/
inductive Event where
  | connect (server port : String)
  | login (username password : String)
  | listCmd
  | select (mailbox : String)
  | searchCmd (mailbox : String)
  | fetch (mailbox num : String)
  | logout
  | mkdir (path : String)
  | writeFile (path : String) (content : Bytes)
  | msg (line : String)
deriving DecidableEq

/-- The tuple of values returned by `get_user_inputs()` before
stripping: what the user actually typed at the four prompts. -/
structure Inputs where
  server : String
  port : String
  username : String
  password : String
deriving DecidableEq

/-- `get_user_inputs()`: every prompt result is `.strip()`ped; the port
falls back to `"993"` when the stripped string is empty. -/
def get_user_inputs (raw : Inputs) : Inputs :=
  { server := pyStrip raw.server
    port := pyOrDefault (pyStrip raw.port) "993"
    username := pyStrip raw.username
    password := pyStrip raw.password }

/-- `connect_to_imap(server, port, username, password)`: `true` iff a
logged-in connection is returned (`None` otherwise), with the trace of
calls and prints. -/
def connect_to_imap (w : World) (server port username password : String) :
    Bool × List Event :=
  match w.connectR with
  | .error e =>
    (false, [Event.connect server port,
      Event.msg (if e.imapError
        then "Error: Could not connect to " ++ server ++ ":" ++ port ++
             ". Check the server and port."
        else "Error: " ++ e.text)])
  | .ok _ =>
    match w.loginR with
    | .error e =>
      (false, [Event.connect server port, Event.login username password,
        Event.msg (if e.imapError
          then "Error: Login failed. Check your username and password."
          else "Unexpected error during login: " ++ e.text)])
    | .ok _ =>
      (true, [Event.connect server port, Event.login username password,
        Event.msg "Connected to IMAP server and logged in successfully."])

/-- Whether both the connection and the login succeed in world `w`. -/
def connOk (w : World) : Bool :=
  match w.connectR, w.loginR with
  | .ok _, .ok _ => true
  | _, _ => false

/-- `box.split()[-1]`: the last whitespace-separated token of a list
entry; `none` models the `IndexError` on an entry with no tokens. -/
def lastTok (entry : String) : Option String := (pySplit entry).getLast?

/-- The list comprehension `[box.split()[-1].decode() for box in mailboxes]`:
`none` when any entry raises `IndexError` (the whole comprehension, and
with it every already-extracted name, is then discarded by the caller's
`except`). -/
def extract_names : List String → Option (List String)
  | [] => some []
  | e :: es =>
    match lastTok e, extract_names es with
    | some t, some ts => some (t :: ts)
    | _, _ => none

/-- `list_mailboxes(mail)`: the names returned together with the trace. -/
def list_mailboxes (w : World) : List String × List Event :=
  match w.listR with
  | .error e => ([], [Event.listCmd, Event.msg ("Error listing mailboxes: " ++ e.text)])
  | .ok (status, boxes) =>
    if status = "OK" then
      match extract_names boxes with
      | some names => (names, [Event.listCmd])
      | none =>
        ([], [Event.listCmd, Event.msg "Error listing mailboxes: list index out of range"])
    else ([], [Event.listCmd, Event.msg "Error: Failed to retrieve mailboxes."])

/-- The output path of one message:
`os.path.join(mailbox_dir, f"{num}_{sanitize_filename(subject)}.eml")`. -/
def eml_path (mailbox_dir num subject : String) : String :=
  mailbox_dir ++ "/" ++ (num ++ "_" ++ sanitize_filename subject ++ ".eml")

/-- The `for response_part in msg_data:` loop body: each tuple part is
parsed for a subject and its payload written; returns the events
performed and the exception, if any, that aborted the loop (events
already performed — files already written — are kept). -/
def write_parts (w : World) (mailbox mailbox_dir num : String) :
    List FetchPart → List Event × Option PyErr
  | [] => ([], none)
  | FetchPart.bare _ :: rest => write_parts w mailbox mailbox_dir num rest
  | FetchPart.tup _ payload :: rest =>
    match w.subjectR payload with
    | .error e => ([], some e)
    | .ok subjOpt =>
      let subject := subjOpt.getD "No_Subject"
      let path := eml_path mailbox_dir num subject
      match w.openW path with
      | some e => ([], some e)
      | none =>
        let r := write_parts w mailbox mailbox_dir num rest
        (Event.writeFile path payload ::
         Event.msg ("Saved: " ++ mailbox ++ "/" ++
           (num ++ "_" ++ sanitize_filename subject ++ ".eml")) :: r.1,
         r.2)

/-- One iteration of the `for num in messages[0].split():` loop: fetch
the message and write its parts, with the per-message `try/except`
absorbing any exception. -/
def process_message (w : World) (mailbox mailbox_dir num : String) : List Event :=
  Event.fetch mailbox num ::
  match w.fetchR mailbox num with
  | .error e =>
    [Event.msg ("Error processing email " ++ num ++ " in " ++ mailbox ++ ": " ++ e.text)]
  | .ok (status, parts) =>
    if status = "OK" then
      let r := write_parts w mailbox mailbox_dir num parts
      r.1 ++
      (match r.2 with
       | some e =>
         [Event.msg ("Error processing email " ++ num ++ " in " ++ mailbox ++ ": " ++ e.text)]
       | none => [])
    else [Event.msg ("Failed to fetch message " ++ num ++ " in " ++ mailbox ++ ".")]

/-- The message loop over all identifiers of one mailbox. -/
def run_messages (w : World) (mailbox mailbox_dir : String) : List String → List Event
  | [] => []
  | num :: rest =>
    process_message w mailbox mailbox_dir num ++ run_messages w mailbox mailbox_dir rest

/-- `download_emails(mail, mailbox, output_dir)`: select, search, create
the mailbox directory, process every message; the outer `try/except`
absorbs exceptions from select/search (including the `IndexError` when
the search data list is empty). -/
def download_emails (w : World) (mailbox output_dir : String) : List Event :=
  Event.select mailbox ::
  match w.selectR mailbox with
  | .error e => [Event.msg ("Error accessing mailbox " ++ mailbox ++ ": " ++ e.text)]
  | .ok st =>
    if st = "OK" then
      Event.searchCmd mailbox ::
      match w.searchR mailbox with
      | .error e => [Event.msg ("Error accessing mailbox " ++ mailbox ++ ": " ++ e.text)]
      | .ok (sst, data) =>
        if sst = "OK" then
          match data with
          | [] =>
            [Event.msg ("Error accessing mailbox " ++ mailbox ++ ": list index out of range")]
          | d0 :: _ =>
            if d0 = "" then [Event.msg ("No messages found in " ++ mailbox ++ ".")]
            else
              let mailbox_dir := output_dir ++ "/" ++ sanitize_filename mailbox
              Event.mkdir mailbox_dir :: run_messages w mailbox mailbox_dir (pySplit d0)
        else [Event.msg ("No messages found in " ++ mailbox ++ ".")]
    else [Event.msg ("Error: Could not select mailbox " ++ mailbox ++ ". Skipping.")]

/-- `mail.logout()` with its `try/except`: invoked (one event) whether it
succeeds or raises. -/
def logout_events (w : World) : List Event :=
  Event.logout ::
  match w.logoutR with
  | .ok _ => [Event.msg "Logged out successfully."]
  | .error e => [Event.msg ("Error during logout: " ++ e.text)]

/-- `f"{sanitize_filename(server)}_{sanitize_filename(username)}"`. -/
def output_root (server username : String) : String :=
  sanitize_filename server ++ "_" ++ sanitize_filename username

/-- The mailbox loop of `main`. -/
def run_mailboxes (w : World) (output_dir : String) : List String → List Event
  | [] => []
  | mb :: rest =>
    (Event.msg ("Processing mailbox: " ++ mb) :: download_emails w mb output_dir) ++
    run_mailboxes w output_dir rest

/-- `main()`: the complete trace of one run, as a function of what the
user typed and of the world oracle. -/
def main (w : World) (raw : Inputs) : List Event :=
  let i := get_user_inputs raw
  let output_dir := output_root i.server i.username
  let pre : List Event :=
    [Event.mkdir output_dir, Event.msg ("Emails will be saved in: " ++ output_dir)]
  let c := connect_to_imap w i.server i.port i.username i.password
  if c.1 = false then
    pre ++ c.2 ++ [Event.msg "Exiting due to connection issues."]
  else
    let L := list_mailboxes w
    if L.1 = [] then
      pre ++ c.2 ++ L.2 ++ [Event.msg "No mailboxes found or unable to retrieve them."]
    else
      pre ++ c.2 ++ L.2 ++
        (Event.msg "Found mailboxes" :: run_mailboxes w output_dir L.1) ++
        logout_events w

/-! ## Observations on traces -/

/-- Whether a fetch response part is a tuple (payload-bearing) part. -/
def isTup : FetchPart → Bool
  | FetchPart.tup _ _ => true
  | _ => false

/-- The files written in a trace, in order: `(path, content)` pairs. -/
def writeEvents (t : List Event) : List (String × Bytes) :=
  t.filterMap fun e =>
    match e with
    | Event.writeFile p b => some (p, b)
    | _ => none

/-- The directories created in a trace, in order. -/
def mkdirEvents (t : List Event) : List String :=
  t.filterMap fun e =>
    match e with
    | Event.mkdir p => some p
    | _ => none

/-- How many times `logout` was invoked in a trace. -/
def logoutCount (t : List Event) : Nat :=
  t.countP fun e =>
    match e with
    | Event.logout => true
    | _ => false

/-- Whether an event is one of the four mailbox operations
(list, select, search, fetch). -/
def isMailboxOp : Event → Bool
  | Event.listCmd => true
  | Event.select _ => true
  | Event.searchCmd _ => true
  | Event.fetch _ _ => true
  | _ => false

/-- How many select commands a trace attempts. -/
def selectCount (t : List Event) : Nat :=
  t.countP fun e =>
    match e with
    | Event.select _ => true
    | _ => false

/-- Modelled from the spec's words, for comparison with `py_isalnum`
(which follows the source): a character that is an ASCII letter or
digit. -/
def specAsciiAlnum (c : Char) : Bool :=
  (65 ≤ c.toNat && c.toNat ≤ 90) || (97 ≤ c.toNat && c.toNat ≤ 122) ||
  (48 ≤ c.toNat && c.toNat ≤ 57)

/-- Whether `download_emails` reaches its `os.makedirs` call in world
`w`: selection succeeded with status `OK` and the search succeeded with
status `OK` and a truthy (non-empty) first data item. -/
def dir_created (w : World) (mailbox : String) : Bool :=
  match w.selectR mailbox with
  | .error _ => false
  | .ok st =>
    if st = "OK" then
      match w.searchR mailbox with
      | .error _ => false
      | .ok (sst, data) =>
        if sst = "OK" then
          match data with
          | [] => false
          | d0 :: _ => !(d0 == "")
        else false
    else false

/-! ## Concrete worlds and inputs used by witnesses and counterexamples -/

/-- Typed inputs for the concrete runs below. -/
def rawT : Inputs :=
  { server := "imap.test", port := "", username := "u@test", password := "pw" }

/-- Typed inputs matching the spec's directory-naming example. -/
def rawD : Inputs :=
  { server := "mail.example.com", port := "993",
    username := "a.b@example.com", password := "pw" }

/-- A fully successful world: one mailbox, one message with a subject. -/
def wDemo : World :=
  { connectR := .ok ()
    loginR := .ok ()
    listR := .ok ("OK", ["(\\HasNoChildren) \".\" INBOX"])
    selectR := fun _ => .ok "OK"
    searchR := fun _ => .ok ("OK", ["1"])
    fetchR := fun _ _ => .ok ("OK", [FetchPart.tup "1 (RFC822 ...)" [72, 105],
                                     FetchPart.bare ")"])
    subjectR := fun _ => .ok (some "Hello World")
    openW := fun _ => none
    logoutR := .ok () }

/-- A world with one failing mailbox (`Trash`), one failing message
(`"1"`) and one succeeding message (`"2"`) in `INBOX`. -/
def wPartial : World :=
  { connectR := .ok ()
    loginR := .ok ()
    listR := .ok ("OK", ["(\\HasNoChildren) \".\" Trash",
                         "(\\HasNoChildren) \".\" INBOX"])
    selectR := fun mbx => if mbx = "Trash" then .error ⟨true, "cannot select"⟩
                          else .ok "OK"
    searchR := fun _ => .ok ("OK", ["1 2"])
    fetchR := fun _ num => if num = "1" then .error ⟨false, "socket error"⟩
                           else .ok ("OK", [FetchPart.tup "2 (RFC822 ...)" [66],
                                            FetchPart.bare ")"])
    subjectR := fun _ => .ok none
    openW := fun _ => none
    logoutR := .ok () }

/-- A world whose list command succeeds but returns no mailboxes. -/
def wEmptyList : World :=
  { connectR := .ok ()
    loginR := .ok ()
    listR := .ok ("OK", [])
    selectR := fun _ => .ok "OK"
    searchR := fun _ => .ok ("OK", ["1"])
    fetchR := fun _ _ => .ok ("OK", [])
    subjectR := fun _ => .ok none
    openW := fun _ => none
    logoutR := .ok () }

/-- A world whose search succeeds with a whitespace-only data payload:
truthy bytes, but zero message identifiers. -/
def wBlankSearch : World :=
  { connectR := .ok ()
    loginR := .ok ()
    listR := .ok ("OK", ["(\\HasNoChildren) \".\" INBOX"])
    selectR := fun _ => .ok "OK"
    searchR := fun _ => .ok ("OK", [" "])
    fetchR := fun _ _ => .ok ("OK", [])
    subjectR := fun _ => .ok none
    openW := fun _ => none
    logoutR := .ok () }

/-- A world whose connection attempt fails. -/
def wNoConn : World :=
  { connectR := .error ⟨true, "unreachable"⟩
    loginR := .ok ()
    listR := .ok ("OK", [])
    selectR := fun _ => .ok "OK"
    searchR := fun _ => .ok ("OK", [""])
    fetchR := fun _ _ => .ok ("OK", [])
    subjectR := fun _ => .ok none
    openW := fun _ => none
    logoutR := .ok () }

/-- A world whose list response contains one well-formed entry and one
whitespace-only entry (no tokens). -/
def wBadEntry : World :=
  { connectR := .ok ()
    loginR := .ok ()
    listR := .ok ("OK", ["(\\HasNoChildren) \".\" INBOX", " "])
    selectR := fun _ => .ok "OK"
    searchR := fun _ => .ok ("OK", ["1"])
    fetchR := fun _ _ => .ok ("OK", [])
    subjectR := fun _ => .ok none
    openW := fun _ => none
    logoutR := .ok () }

/-! ## The sanitizer: claims C7 and C8 -/

theorem sanChar_idem (c : Char) : sanChar (sanChar c) = sanChar c := by
  by_cases h : py_isalnum c = true
  · simp [sanChar, h]
  · simp [sanChar, h]

set_option maxRecDepth 8192 in
/-- Claim C7 fails as stated: Python's `isalnum` is Unicode-aware, so
`sanitize_filename` keeps the non-ASCII letter `é` unchanged, and its
output is not made of ASCII letters, digits and underscores only. -/
theorem C7_counterexample :
    sanitize_filename "é" = "é" ∧
    ¬ ((sanitize_filename "é").data.all (fun c => specAsciiAlnum c || c == '_') = true) := by
  decide

/-- Claim C7, amended: `sanitize_filename` keeps every character that
Python's `str.isalnum` accepts (which includes non-ASCII letters and
digits) and replaces every other character with an underscore, so the
output contains only alphanumeric characters and underscores. -/
theorem C7_sanitize_alphabet (s : String) :
    (sanitize_filename s).data.all (fun c => py_isalnum c || c == '_') = true ∧
    (sanitize_filename s).data =
      s.data.map (fun c => if py_isalnum c = true then c else '_') := by
  refine ⟨?_, rfl⟩
  simp only [sanitize_filename, List.all_eq_true]
  intro c hc
  rcases List.mem_map.1 hc with ⟨a, _, rfl⟩
  by_cases h : py_isalnum a = true
  · simp [sanChar, h]
  · simp [sanChar, h]

/-- Claim C8: the sanitizer is idempotent and length-preserving. -/
theorem C8_sanitize_idem_length (s : String) :
    sanitize_filename (sanitize_filename s) = sanitize_filename s ∧
    (sanitize_filename s).length = s.length := by
  constructor
  · simp only [sanitize_filename, List.map_map]
    exact congrArg String.mk (List.map_congr_left fun c _ => sanChar_idem c)
  · show (s.data.map sanChar).length = s.data.length
    simp

/-! ## Stripping of interactive inputs: claim C10 -/

theorem length_dropWhile_lt_of_head (m : List Char) (c : Char)
    (h : m.head? = some c) (hc : py_isspace c = true) :
    (m.dropWhile py_isspace).length < m.length := by
  cases m with
  | nil => simp at h
  | cons y ys =>
    have hyc : y = c := by simpa using h
    subst hyc
    rw [List.dropWhile_cons, if_pos hc]
    exact Nat.lt_succ_of_le ((List.dropWhile_sublist py_isspace).length_le)

theorem pyStrip_length_lt_of_head (l : List Char) (c : Char)
    (hl : l.head? = some c) (hc : py_isspace c = true) :
    (((l.dropWhile py_isspace).reverse.dropWhile py_isspace).reverse).length < l.length := by
  have h1 : (l.dropWhile py_isspace).length < l.length :=
    length_dropWhile_lt_of_head l c hl hc
  have h2 : ((l.dropWhile py_isspace).reverse.dropWhile py_isspace).length
      ≤ (l.dropWhile py_isspace).reverse.length :=
    (List.dropWhile_sublist py_isspace).length_le
  simp only [List.length_reverse] at h2 ⊢
  omega

theorem pyStrip_length_lt_of_last (l : List Char) (c : Char)
    (hl : l.getLast? = some c) (hc : py_isspace c = true) :
    (((l.dropWhile py_isspace).reverse.dropWhile py_isspace).reverse).length < l.length := by
  have hlne : l ≠ [] := by
    intro h; rw [h] at hl; simp at hl
  have hlpos : 0 < l.length := List.length_pos.2 hlne
  by_cases hnil : List.dropWhile py_isspace l = []
  · rw [hnil]; simpa using hlpos
  · have hlast : (List.dropWhile py_isspace l).getLast? = some c := by
      rcases List.dropWhile_suffix py_isspace (l := l) with ⟨t, ht⟩
      rw [← ht] at hl
      rw [List.getLast?_append_of_ne_nil t hnil] at hl
      exact hl
    have hhead : (List.dropWhile py_isspace l).reverse.head? = some c := by
      rw [List.head?_reverse]; exact hlast
    have h1 : ((List.dropWhile py_isspace l).reverse.dropWhile py_isspace).length
        < (List.dropWhile py_isspace l).reverse.length :=
      length_dropWhile_lt_of_head _ c hhead hc
    have h2 : (List.dropWhile py_isspace l).length ≤ l.length :=
      (List.dropWhile_sublist py_isspace).length_le
    simp only [List.length_reverse] at h1 ⊢
    omega

/-- Claim C10: `get_user_inputs` strips every prompt result, including
the secret; a password whose first or last character is whitespace is
therefore changed before being passed to authentication. -/
theorem C10_inputs_stripped (raw : Inputs) (c : Char) :
    get_user_inputs raw =
      { server := pyStrip raw.server
        port := pyOrDefault (pyStrip raw.port) "993"
        username := pyStrip raw.username
        password := pyStrip raw.password } ∧
    (raw.password.data.head? = some c → py_isspace c = true →
      (get_user_inputs raw).password ≠ raw.password) ∧
    (raw.password.data.getLast? = some c → py_isspace c = true →
      (get_user_inputs raw).password ≠ raw.password) := by
  refine ⟨rfl, ?_, ?_⟩
  · intro h1 h2 heq
    have hlt := pyStrip_length_lt_of_head raw.password.data c h1 h2
    have hlen : (pyStrip raw.password).data.length = raw.password.data.length := by
      have := congrArg (fun s => s.data.length) heq
      simpa [get_user_inputs] using this
    simp only [pyStrip] at hlen
    omega
  · intro h1 h2 heq
    have hlt := pyStrip_length_lt_of_last raw.password.data c h1 h2
    have hlen : (pyStrip raw.password).data.length = raw.password.data.length := by
      have := congrArg (fun s => s.data.length) heq
      simpa [get_user_inputs] using this
    simp only [pyStrip] at hlen
    omega

/-- Witness for C10 at a concrete password with a leading blank. -/
theorem C10_witness :
    (get_user_inputs
      { server := "imap.test", port := "", username := "u@test",
        password := " hunter2" }).password ≠ " hunter2" :=
  (C10_inputs_stripped
    { server := "imap.test", port := "", username := "u@test", password := " hunter2" }
    ' ').2.1 (by decide) (by decide)

/-! ## Structural lemmas on traces -/

theorem writeEvents_append (a b : List Event) :
    writeEvents (a ++ b) = writeEvents a ++ writeEvents b := by
  simp [writeEvents, List.filterMap_append]

theorem mkdirEvents_append (a b : List Event) :
    mkdirEvents (a ++ b) = mkdirEvents a ++ mkdirEvents b := by
  simp [mkdirEvents, List.filterMap_append]

theorem logoutCount_append (a b : List Event) :
    logoutCount (a ++ b) = logoutCount a + logoutCount b := by
  simp [logoutCount, List.countP_append]

theorem write_parts_no_tup (w : World) (mb dir num : String) :
    ∀ parts : List FetchPart, (∀ q ∈ parts, isTup q = false) →
      write_parts w mb dir num parts = ([], none)
  | [], _ => rfl
  | FetchPart.bare b :: rest, h => by
    simp only [write_parts]
    exact write_parts_no_tup w mb dir num rest fun q hq => h q (List.mem_cons_of_mem _ hq)
  | FetchPart.tup i pl :: rest, h => by
    have := h (FetchPart.tup i pl) (List.mem_cons_self _ _)
    simp [isTup] at this

theorem write_parts_events (w : World) (mb dir num : String) :
    ∀ parts : List FetchPart,
      mkdirEvents (write_parts w mb dir num parts).1 = [] ∧
      logoutCount (write_parts w mb dir num parts).1 = 0
  | [] => by simp [write_parts, mkdirEvents, logoutCount]
  | FetchPart.bare b :: rest => by
    simp only [write_parts]
    exact write_parts_events w mb dir num rest
  | FetchPart.tup i pl :: rest => by
    rcases h1 : w.subjectR pl with e | so
    · simp [write_parts, h1, mkdirEvents, logoutCount]
    · rcases h2 : w.openW (eml_path dir num (so.getD "No_Subject")) with _ | e
      · have ih := write_parts_events w mb dir num rest
        simp only [write_parts, h1, h2]
        simp only [mkdirEvents, logoutCount, List.filterMap_cons, List.countP_cons] at ih ⊢
        simp [ih.1, ih.2]
      · simp [write_parts, h1, h2, mkdirEvents, logoutCount]

theorem process_message_events (w : World) (mb dir num : String) :
    mkdirEvents (process_message w mb dir num) = [] ∧
    logoutCount (process_message w mb dir num) = 0 := by
  rcases h1 : w.fetchR mb num with e | ⟨st, parts⟩
  · simp [process_message, h1, mkdirEvents, logoutCount]
  · by_cases h2 : st = "OK"
    · have hw := write_parts_events w mb dir num parts
      rcases h3 : (write_parts w mb dir num parts).2 with _ | e
      · simp only [process_message, h1, h2, if_pos, h3]
        simp only [mkdirEvents, logoutCount, List.filterMap_cons, List.countP_cons,
          List.filterMap_append, List.countP_append] at hw ⊢
        simp [hw.1, hw.2]
      · simp only [process_message, h1, h2, if_pos, h3]
        simp only [mkdirEvents, logoutCount, List.filterMap_cons, List.countP_cons,
          List.filterMap_append, List.countP_append] at hw ⊢
        simp [hw.1, hw.2]
    · simp [process_message, h1, h2, mkdirEvents, logoutCount]

theorem run_messages_events (w : World) (mb dir : String) :
    ∀ nums : List String,
      mkdirEvents (run_messages w mb dir nums) = [] ∧
      logoutCount (run_messages w mb dir nums) = 0
  | [] => by simp [run_messages, mkdirEvents, logoutCount]
  | num :: rest => by
    have h1 := process_message_events w mb dir num
    have ih := run_messages_events w mb dir rest
    simp only [run_messages, mkdirEvents_append, logoutCount_append]
    simp [h1.1, h1.2, ih.1, ih.2]

theorem download_emails_logout (w : World) (mb dir : String) :
    logoutCount (download_emails w mb dir) = 0 := by
  rcases h1 : w.selectR mb with e | st
  · simp [download_emails, h1, logoutCount]
  · by_cases h2 : st = "OK"
    · rcases h3 : w.searchR mb with e | ⟨sst, data⟩
      · simp [download_emails, h1, h2, h3, logoutCount]
      · by_cases h4 : sst = "OK"
        · rcases data with _ | ⟨d0, drest⟩
          · simp [download_emails, h1, h2, h3, h4, logoutCount]
          · by_cases h6 : d0 = ""
            · simp [download_emails, h1, h2, h3, h4, h6, logoutCount]
            · have hr := run_messages_events w mb
                (dir ++ "/" ++ sanitize_filename mb) (pySplit d0)
              have hr2 := hr.2
              simp only [logoutCount] at hr2
              simp [download_emails, h1, h2, h3, h4, h6, logoutCount,
                List.countP_cons, hr2]
        · simp [download_emails, h1, h2, h3, h4, logoutCount]
    · simp [download_emails, h1, h2, logoutCount]

theorem run_mailboxes_logout (w : World) (dir : String) :
    ∀ mbs : List String, logoutCount (run_mailboxes w dir mbs) = 0
  | [] => by simp [run_mailboxes, logoutCount]
  | mb :: rest => by
    have h1 := download_emails_logout w mb dir
    have ih := run_mailboxes_logout w dir rest
    simp only [run_mailboxes, logoutCount_append]
    simp only [logoutCount, List.countP_cons] at h1 ih ⊢
    simp [h1, ih]

theorem connect_to_imap_fst (w : World) (s p u pw : String) :
    (connect_to_imap w s p u pw).1 = connOk w := by
  rcases h1 : w.connectR with e | u1
  · simp [connect_to_imap, connOk, h1]
  · rcases h2 : w.loginR with e | u2
    · simp [connect_to_imap, connOk, h1, h2]
    · simp [connect_to_imap, connOk, h1, h2]

theorem connect_to_imap_logout (w : World) (s p u pw : String) :
    logoutCount (connect_to_imap w s p u pw).2 = 0 := by
  rcases h1 : w.connectR with e | u1
  · simp [connect_to_imap, h1, logoutCount]
  · rcases h2 : w.loginR with e | u2
    · simp [connect_to_imap, h1, h2, logoutCount]
    · simp [connect_to_imap, h1, h2, logoutCount]

theorem list_mailboxes_logout (w : World) :
    logoutCount (list_mailboxes w).2 = 0 := by
  rcases h1 : w.listR with e | ⟨st, boxes⟩
  · simp [list_mailboxes, h1, logoutCount]
  · by_cases h2 : st = "OK"
    · rcases h3 : extract_names boxes with _ | names
      · simp [list_mailboxes, h1, h2, h3, logoutCount]
      · simp [list_mailboxes, h1, h2, h3, logoutCount]
    · simp [list_mailboxes, h1, h2, logoutCount]

theorem logout_events_count (w : World) : logoutCount (logout_events w) = 1 := by
  rcases h1 : w.logoutR with e | u1
  · simp [logout_events, h1, logoutCount]
  · simp [logout_events, h1, logoutCount]

/-! ## Claim C4: when is the mailbox subdirectory created? -/

set_option maxRecDepth 8192 in
/-- Claim C4 fails as stated: in a world whose search returns the
whitespace-only data payload `" "`, zero message identifiers are
returned (`pySplit " " = []`), yet the mailbox subdirectory is created
(the payload is truthy, so the `not messages[0]` guard does not fire),
and no message is processed. -/
theorem C4_counterexample :
    pySplit " " = [] ∧
    Event.mkdir "out/INBOX" ∈ download_emails wBlankSearch "INBOX" "out" ∧
    writeEvents (download_emails wBlankSearch "INBOX" "out") = [] := by
  decide

/-- Claim C4, amended: the mailbox subdirectory (and only it) is created
exactly when selection succeeds with status `OK` and the search succeeds
with status `OK` and a truthy (non-empty) first data payload; selection
or search failure, non-`OK` status, or an empty payload create no
directory — but a whitespace-only payload, which yields zero message
identifiers, does create one. -/
theorem C4_dir_creation (w : World) (mb dir : String) :
    mkdirEvents (download_emails w mb dir) =
      if dir_created w mb = true then [dir ++ "/" ++ sanitize_filename mb] else [] := by
  rcases h1 : w.selectR mb with e | st
  · simp [download_emails, dir_created, h1, mkdirEvents]
  · by_cases h2 : st = "OK"
    · rcases h3 : w.searchR mb with e | ⟨sst, data⟩
      · simp [download_emails, dir_created, h1, h2, h3, mkdirEvents]
      · by_cases h4 : sst = "OK"
        · rcases data with _ | ⟨d0, drest⟩
          · simp [download_emails, dir_created, h1, h2, h3, h4, mkdirEvents]
          · by_cases h6 : d0 = ""
            · simp [download_emails, dir_created, h1, h2, h3, h4, h6, mkdirEvents]
            · have hr1 := (run_messages_events w mb
                (dir ++ "/" ++ sanitize_filename mb) (pySplit d0)).1
              simp only [mkdirEvents] at hr1
              simp [download_emails, dir_created, h1, h2, h3, h4, h6, mkdirEvents]
              exact List.filterMap_eq_nil_iff.mp hr1
        · simp [download_emails, dir_created, h1, h2, h3, h4, mkdirEvents]
    · simp [download_emails, dir_created, h1, h2, mkdirEvents]

/-! ## Claim C3: when is logout invoked? -/

set_option maxRecDepth 8192 in
/-- Claim C3 fails as stated: in a world where connection and login
succeed but the mailbox list comes back empty, the run exits without
ever invoking logout. -/
theorem C3_counterexample :
    Event.login "u@test" "pw" ∈ main wEmptyList rawT ∧
    logoutCount (main wEmptyList rawT) = 0 := by
  decide

/-- Claim C3, amended: logout is invoked exactly once when the session
is established and the mailbox list is non-empty, regardless of any
per-mailbox or per-message failures; on the empty-mailbox-list exit
path (and when connect or login fails) it is never invoked. -/
theorem C3_logout_exactly_once (w : World) (raw : Inputs) :
    logoutCount (main w raw) =
      if (connOk w && !(list_mailboxes w).1.isEmpty) = true then 1 else 0 := by
  have hfst := connect_to_imap_fst w (pyStrip raw.server)
    (pyOrDefault (pyStrip raw.port) "993") (pyStrip raw.username) (pyStrip raw.password)
  have hconn := connect_to_imap_logout w (pyStrip raw.server)
    (pyOrDefault (pyStrip raw.port) "993") (pyStrip raw.username) (pyStrip raw.password)
  have hlist := list_mailboxes_logout w
  cases hok : connOk w with
  | false =>
    rw [hok] at hfst
    simp only [main, get_user_inputs, hok]
    rw [if_pos hfst]
    simp only [logoutCount_append, hconn]
    simp [logoutCount]
  | true =>
    rw [hok] at hfst
    simp only [main, get_user_inputs, hok]
    rw [if_neg (by simp [hfst])]
    by_cases hL : (list_mailboxes w).1 = []
    · rw [if_pos hL]
      simp only [logoutCount_append, hconn, hlist]
      simp [logoutCount, hL]
    · rw [if_neg hL]
      have hRun := run_mailboxes_logout w
        (output_root (pyStrip raw.server) (pyStrip raw.username)) (list_mailboxes w).1
      have hEnd := logout_events_count w
      have hEmp : (list_mailboxes w).1.isEmpty = false := by
        simpa [List.isEmpty_iff] using hL
      simp only [logoutCount_append, hconn, hlist, hEnd, hEmp]
      simp only [logoutCount, List.countP_cons] at hRun ⊢
      simp [hRun]

/-! ## Claim C5: connection failure aborts the run -/

/-- Claim C5: if connecting to the server or authenticating fails for
any reason, the run aborts after reporting the failure, and no mailbox
operation (list, select, search, fetch) is ever attempted. -/
theorem C5_connect_failure_aborts (w : World) (raw : Inputs)
    (h : connOk w = false) :
    (main w raw).all (fun e => !(isMailboxOp e)) = true ∧
    Event.msg "Exiting due to connection issues." ∈ main w raw := by
  have hfst := connect_to_imap_fst w (pyStrip raw.server)
    (pyOrDefault (pyStrip raw.port) "993") (pyStrip raw.username) (pyStrip raw.password)
  rw [h] at hfst
  constructor
  · simp only [main, get_user_inputs]
    rw [if_pos hfst]
    rcases h1 : w.connectR with e | u1
    · simp [connect_to_imap, h1, isMailboxOp]
    · rcases h2 : w.loginR with e | u2
      · simp [connect_to_imap, h1, h2, isMailboxOp]
      · exfalso
        simp [connOk, h1, h2] at h
  · simp only [main, get_user_inputs]
    rw [if_pos hfst]
    simp

/-- Witness for C5: with an unreachable server, the whole trace is free
of mailbox operations and the abort is reported. -/
theorem C5_witness :
    (main wNoConn rawT).all (fun e => !(isMailboxOp e)) = true ∧
    Event.msg "Exiting due to connection issues." ∈ main wNoConn rawT :=
  C5_connect_failure_aborts wNoConn rawT (by decide)

/-! ## Claim C9: one malformed list entry discards every mailbox -/

theorem extract_names_none :
    ∀ (boxes : List String) (ent : String), ent ∈ boxes → pySplit ent = [] →
      extract_names boxes = none
  | [], ent, he, _ => absurd he (List.not_mem_nil ent)
  | b :: bs, ent, he, hsplit => by
    rcases List.mem_cons.mp he with rfl | hmem
    · simp [extract_names, lastTok, hsplit]
    · have ih := extract_names_none bs ent hmem hsplit
      rcases hb : lastTok b with _ | t
      · simp [extract_names, hb, ih]
      · simp [extract_names, hb, ih]

/-- Claim C9: if the list command returns success but any returned entry
has no whitespace-separated tokens, the whole comprehension raises
`IndexError` and every already-extracted name is discarded:
`list_mailboxes` returns the empty sequence, and the orchestrator then
aborts the run as if the account had no mailboxes — no select is ever
attempted and the no-mailboxes report is printed. -/
theorem C9_malformed_entry (w : World) (raw : Inputs) (entries : List String)
    (ent : String) (hl : w.listR = Except.ok ("OK", entries))
    (he : ent ∈ entries) (hsplit : pySplit ent = []) :
    (list_mailboxes w).1 = [] ∧
    (connOk w = true →
      selectCount (main w raw) = 0 ∧
      Event.msg "No mailboxes found or unable to retrieve them." ∈ main w raw) := by
  have hnone := extract_names_none entries ent he hsplit
  have hlm : list_mailboxes w =
      ([], [Event.listCmd,
            Event.msg "Error listing mailboxes: list index out of range"]) := by
    simp [list_mailboxes, hl, hnone]
  have hfst := connect_to_imap_fst w (pyStrip raw.server)
    (pyOrDefault (pyStrip raw.port) "993") (pyStrip raw.username) (pyStrip raw.password)
  refine ⟨by rw [hlm], fun hok => ?_⟩
  rw [hok] at hfst
  constructor
  · simp only [main, get_user_inputs]
    rw [if_neg (by simp [hfst])]
    rw [if_pos (by rw [hlm])]
    rcases h1 : w.connectR with e | u1
    · simp [connOk, h1] at hok
    · rcases h2 : w.loginR with e | u2
      · simp [connOk, h1, h2] at hok
      · simp [selectCount, List.countP_append, List.countP_cons,
          connect_to_imap, h1, h2, hlm]
  · simp only [main, get_user_inputs]
    rw [if_neg (by simp [hfst])]
    rw [if_pos (by rw [hlm])]
    simp

/-- Witness for C9: one whitespace-only entry next to a well-formed
`INBOX` entry empties the mailbox list and stops the run before any
select. -/
theorem C9_witness :
    (list_mailboxes wBadEntry).1 = [] ∧
    selectCount (main wBadEntry rawT) = 0 ∧
    Event.msg "No mailboxes found or unable to retrieve them." ∈ main wBadEntry rawT := by
  have h := C9_malformed_entry wBadEntry rawT
    ["(\\HasNoChildren) \".\" INBOX", " "] " " (by rfl) (by decide) (by decide)
  exact ⟨h.1, (h.2 (by decide)).1, (h.2 (by decide)).2⟩

/-! ## Claim C1: the payload is written verbatim, once per message -/

theorem write_parts_single_tup (w : World) (mb dir num info : String)
    (payload : Bytes) (so : Option String) :
    ∀ parts : List FetchPart,
      parts.filter isTup = [FetchPart.tup info payload] →
      w.subjectR payload = Except.ok so →
      w.openW (eml_path dir num (so.getD "No_Subject")) = none →
      writeEvents (write_parts w mb dir num parts).1
          = [(eml_path dir num (so.getD "No_Subject"), payload)] ∧
        (write_parts w mb dir num parts).2 = none
  | [], hf, _, _ => by simp at hf
  | FetchPart.bare b :: rest, hf, hs, ho => by
    have hf2 : rest.filter isTup = [FetchPart.tup info payload] := by
      simpa [List.filter_cons, isTup] using hf
    have ih := write_parts_single_tup w mb dir num info payload so rest hf2 hs ho
    simpa only [write_parts] using ih
  | FetchPart.tup i pl :: rest, hf, hs, ho => by
    have hf2 : FetchPart.tup i pl :: rest.filter isTup
        = [FetchPart.tup info payload] := by
      simpa [List.filter_cons, isTup] using hf
    injection hf2 with hhead htail
    injection hhead with hi hpl
    subst hi; subst hpl
    have hrestF : ∀ q ∈ rest, isTup q = false := by
      intro q hq
      have := List.filter_eq_nil_iff.mp htail q hq
      exact Bool.eq_false_iff.mpr this
    have hrest := write_parts_no_tup w mb dir num rest hrestF
    simp only [write_parts, hs, ho, hrest]
    simp [writeEvents]

/-- Claim C1: for a message whose fetch succeeds with status `OK` and
whose response contains exactly one tuple (payload-bearing) part —
possibly surrounded by any number of bare parts such as the closing
`b")"` — when subject parsing and the file write succeed, exactly one
file is written for this message identifier, and its content is exactly
the raw payload bytes returned by the fetch call, with no
transformation. -/
theorem C1_payload_written_once (w : World) (mb dir num info : String)
    (payload : Bytes) (so : Option String) (parts : List FetchPart)
    (hfetch : w.fetchR mb num = Except.ok ("OK", parts))
    (hone : parts.filter isTup = [FetchPart.tup info payload])
    (hs : w.subjectR payload = Except.ok so)
    (ho : w.openW (eml_path dir num (so.getD "No_Subject")) = none) :
    writeEvents (process_message w mb dir num)
      = [(eml_path dir num (so.getD "No_Subject"), payload)] := by
  have h := write_parts_single_tup w mb dir num info payload so parts hone hs ho
  simp only [process_message, hfetch, if_pos, h.2]
  simp only [writeEvents, List.filterMap_cons, List.filterMap_append] at h ⊢
  simp [h.1]

/-- Witness for C1: a concrete two-part fetch response
(payload tuple plus the bare `b")"`) produces exactly one write with the
fetched bytes. -/
theorem C1_witness :
    writeEvents (process_message wDemo "INBOX" "root/INBOX" "1")
      = [(eml_path "root/INBOX" "1" "Hello World", [72, 105])] :=
  C1_payload_written_once wDemo "INBOX" "root/INBOX" "1" "1 (RFC822 ...)"
    [72, 105] (some "Hello World")
    [FetchPart.tup "1 (RFC822 ...)" [72, 105], FetchPart.bare ")"]
    (by rfl) (by decide) (by rfl) (by rfl)

/-! ## Claim C2: failures are absorbed, processing continues -/

theorem select_mem_download (w : World) (mb dir : String) :
    Event.select mb ∈ download_emails w mb dir := by
  simp only [download_emails]
  exact List.mem_cons_self _ _

theorem run_mailboxes_select_mem (w : World) (dir : String) :
    ∀ mbs : List String, ∀ mb ∈ mbs, Event.select mb ∈ run_mailboxes w dir mbs
  | [], mb, hmb => absurd hmb (List.not_mem_nil mb)
  | b :: bs, mb, hmb => by
    rcases List.mem_cons.mp hmb with rfl | hmem
    · simp only [run_mailboxes]
      exact List.mem_append_left _ (List.mem_cons_of_mem _ (select_mem_download w mb dir))
    · simp only [run_mailboxes]
      exact List.mem_append_right _ (run_mailboxes_select_mem w dir bs mb hmem)

theorem fetch_mem_process (w : World) (mb dir num : String) :
    Event.fetch mb num ∈ process_message w mb dir num := by
  simp only [process_message]
  exact List.mem_cons_self _ _

theorem run_messages_fetch_mem (w : World) (mb dir : String) :
    ∀ nums : List String, ∀ num ∈ nums,
      Event.fetch mb num ∈ run_messages w mb dir nums
  | [], num, hnum => absurd hnum (List.not_mem_nil num)
  | n :: ns, num, hnum => by
    rcases List.mem_cons.mp hnum with rfl | hmem
    · simp only [run_messages]
      exact List.mem_append_left _ (fetch_mem_process w mb dir num)
    · simp only [run_messages]
      exact List.mem_append_right _ (run_messages_fetch_mem w mb dir ns num hmem)

/-- Claim C2: per-message and per-mailbox errors are absorbed and
reported and never stop the run.  In any world — including worlds where
other mailboxes or other messages fail arbitrarily — (i) every mailbox
in the retrieved list is selected by the orchestrator's loop, (ii) every
message identifier of a searched mailbox is fetched, and (iii) a message
whose fetch raises gets its error report and the loop goes on. -/
theorem C2_errors_absorbed (w : World) (raw : Inputs) (mb dir num d0 : String)
    (rest : List String) :
    (connOk w = true → mb ∈ (list_mailboxes w).1 → Event.select mb ∈ main w raw) ∧
    (w.selectR mb = Except.ok "OK" → w.searchR mb = Except.ok ("OK", d0 :: rest) →
      ¬ d0 = "" → num ∈ pySplit d0 → Event.fetch mb num ∈ download_emails w mb dir) ∧
    (∀ e : PyErr, w.fetchR mb num = Except.error e →
      Event.msg ("Error processing email " ++ num ++ " in " ++ mb ++ ": " ++ e.text)
        ∈ process_message w mb dir num) := by
  refine ⟨?_, ?_, ?_⟩
  · intro hok hmb
    have hfst := connect_to_imap_fst w (pyStrip raw.server)
      (pyOrDefault (pyStrip raw.port) "993") (pyStrip raw.username) (pyStrip raw.password)
    rw [hok] at hfst
    simp only [main, get_user_inputs]
    rw [if_neg (by simp [hfst])]
    rw [if_neg (by intro hL; rw [hL] at hmb; exact List.not_mem_nil mb hmb)]
    have hsel := run_mailboxes_select_mem w
      (output_root (pyStrip raw.server) (pyStrip raw.username)) (list_mailboxes w).1 mb hmb
    simp [List.mem_append, hsel]
  · intro hsel hsearch hd0 hnum
    simp only [download_emails, hsel, hsearch, if_pos, if_neg hd0]
    refine List.mem_cons_of_mem _ (List.mem_cons_of_mem _ (List.mem_cons_of_mem _ ?_))
    exact run_messages_fetch_mem w mb (dir ++ "/" ++ sanitize_filename mb)
      (pySplit d0) num hnum
  · intro e he
    simp [process_message, he]

/-- Witness for C2: `Trash` fails to select and message `"1"` fails to
fetch, yet `INBOX` is still selected and message `"2"` still fetched,
and the failure of `"1"` is reported. -/
theorem C2_witness :
    Event.select "INBOX" ∈ main wPartial rawT ∧
    Event.fetch "INBOX" "2" ∈ download_emails wPartial "INBOX" "out" ∧
    Event.msg "Error processing email 1 in INBOX: socket error"
      ∈ process_message wPartial "INBOX" "out/INBOX" "1" :=
  ⟨(C2_errors_absorbed wPartial rawT "INBOX" "out" "2" "1 2" []).1
      (by decide) (by decide),
   (C2_errors_absorbed wPartial rawT "INBOX" "out" "2" "1 2" []).2.1
      (by rfl) (by rfl) (by decide) (by decide),
   (C2_errors_absorbed wPartial rawT "INBOX" "out/INBOX" "1" "1 2" []).2.2
      ⟨false, "socket error"⟩ (by rfl)⟩

/-! ## Claim C6: output path layout -/

theorem write_parts_shape (w : World) (mb dir num : String) :
    ∀ (parts : List FetchPart) (p : String) (b : Bytes),
      (p, b) ∈ writeEvents (write_parts w mb dir num parts).1 →
      ∃ so : Option String, w.subjectR b = Except.ok so ∧
        p = eml_path dir num (so.getD "No_Subject")
  | [], p, b, h => by simp [write_parts, writeEvents] at h
  | FetchPart.bare s :: rest, p, b, h => by
    simp only [write_parts] at h
    exact write_parts_shape w mb dir num rest p b h
  | FetchPart.tup i pl :: rest, p, b, h => by
    rcases h1 : w.subjectR pl with e | so
    · simp [write_parts, h1, writeEvents] at h
    · rcases h2 : w.openW (eml_path dir num (so.getD "No_Subject")) with _ | e
      · simp only [write_parts, h1, h2, writeEvents, List.filterMap_cons] at h
        rcases List.mem_cons.mp h with hh | ht
        · have hp : p = eml_path dir num (so.getD "No_Subject") := by
            simpa using congrArg Prod.fst hh
          have hb : b = pl := by
            simpa using congrArg Prod.snd hh
          subst hb
          exact ⟨so, h1, hp⟩
        · exact write_parts_shape w mb dir num rest p b ht
      · simp [write_parts, h1, h2, writeEvents] at h

theorem process_message_shape (w : World) (mb dir num : String) (p : String) (b : Bytes) :
    (p, b) ∈ writeEvents (process_message w mb dir num) →
    ∃ so : Option String, w.subjectR b = Except.ok so ∧
      p = eml_path dir num (so.getD "No_Subject") := by
  intro h
  rcases h1 : w.fetchR mb num with e | ⟨st, parts⟩
  · simp [process_message, h1, writeEvents] at h
  · by_cases h2 : st = "OK"
    · simp only [process_message, h1, h2, if_pos, writeEvents,
        List.filterMap_cons, List.filterMap_append] at h
      rcases h3 : (write_parts w mb dir num parts).2 with _ | e
      · rw [h3] at h
        simp only [List.filterMap_nil, List.append_nil] at h
        exact write_parts_shape w mb dir num parts p b h
      · rw [h3] at h
        simp only [List.filterMap_cons] at h
        rcases List.mem_append.mp h with hl | hr
        · exact write_parts_shape w mb dir num parts p b hl
        · simp at hr
    · simp [process_message, h1, h2, writeEvents] at h

theorem run_messages_shape (w : World) (mb dir : String) :
    ∀ (nums : List String) (p : String) (b : Bytes),
      (p, b) ∈ writeEvents (run_messages w mb dir nums) →
      ∃ (num : String) (so : Option String), w.subjectR b = Except.ok so ∧
        p = eml_path dir num (so.getD "No_Subject")
  | [], p, b, h => by simp [run_messages, writeEvents] at h
  | n :: ns, p, b, h => by
    simp only [run_messages, writeEvents_append] at h
    rcases List.mem_append.mp h with hl | hr
    · rcases process_message_shape w mb dir n p b hl with ⟨so, hso, hp⟩
      exact ⟨n, so, hso, hp⟩
    · exact run_messages_shape w mb dir ns p b hr

theorem download_emails_shape (w : World) (mb dir : String) (p : String) (b : Bytes) :
    (p, b) ∈ writeEvents (download_emails w mb dir) →
    ∃ (num : String) (so : Option String), w.subjectR b = Except.ok so ∧
      p = eml_path (dir ++ "/" ++ sanitize_filename mb) num (so.getD "No_Subject") := by
  intro h
  rcases h1 : w.selectR mb with e | st
  · simp [download_emails, h1, writeEvents] at h
  · by_cases h2 : st = "OK"
    · rcases h3 : w.searchR mb with e | ⟨sst, data⟩
      · simp [download_emails, h1, h2, h3, writeEvents] at h
      · by_cases h4 : sst = "OK"
        · rcases data with _ | ⟨d0, drest⟩
          · simp [download_emails, h1, h2, h3, h4, writeEvents] at h
          · by_cases h6 : d0 = ""
            · simp [download_emails, h1, h2, h3, h4, h6, writeEvents] at h
            · simp only [download_emails, h1, h2, h3, h4, h6, if_pos, if_neg,
                writeEvents, List.filterMap_cons] at h
              exact run_messages_shape w mb (dir ++ "/" ++ sanitize_filename mb)
                (pySplit d0) p b h
        · simp [download_emails, h1, h2, h3, h4, writeEvents] at h
    · simp [download_emails, h1, h2, writeEvents] at h

theorem run_mailboxes_shape (w : World) (dir : String) :
    ∀ (mbs : List String) (p : String) (b : Bytes),
      (p, b) ∈ writeEvents (run_mailboxes w dir mbs) →
      ∃ (mb num : String) (so : Option String), w.subjectR b = Except.ok so ∧
        p = eml_path (dir ++ "/" ++ sanitize_filename mb) num (so.getD "No_Subject")
  | [], p, b, h => by simp [run_mailboxes, writeEvents] at h
  | mb :: mbs, p, b, h => by
    simp only [run_mailboxes, List.cons_append, writeEvents, List.filterMap_cons,
      List.filterMap_append] at h
    rcases List.mem_append.mp h with hl | hr
    · rcases download_emails_shape w mb dir p b hl with ⟨num, so, hso, hp⟩
      exact ⟨mb, num, so, hso, hp⟩
    · exact run_mailboxes_shape w dir mbs p b hr

theorem connect_to_imap_writes (w : World) (s pt u pw : String) :
    writeEvents (connect_to_imap w s pt u pw).2 = [] := by
  rcases h1 : w.connectR with e | u1
  · simp [connect_to_imap, h1, writeEvents]
  · rcases h2 : w.loginR with e | u2
    · simp [connect_to_imap, h1, h2, writeEvents]
    · simp [connect_to_imap, h1, h2, writeEvents]

theorem list_mailboxes_writes (w : World) :
    writeEvents (list_mailboxes w).2 = [] := by
  rcases h1 : w.listR with e | ⟨st, boxes⟩
  · simp [list_mailboxes, h1, writeEvents]
  · by_cases h2 : st = "OK"
    · rcases h3 : extract_names boxes with _ | names
      · simp [list_mailboxes, h1, h2, h3, writeEvents]
      · simp [list_mailboxes, h1, h2, h3, writeEvents]
    · simp [list_mailboxes, h1, h2, writeEvents]

theorem logout_events_writes (w : World) :
    writeEvents (logout_events w) = [] := by
  rcases h1 : w.logoutR with e | u1
  · simp [logout_events, h1, writeEvents]
  · simp [logout_events, h1, writeEvents]

set_option maxRecDepth 8192 in
/-- Claim C6: the output root is
`sanitize(server) ++ "_" ++ sanitize(username)` — in particular
`mail_example_com_a_b_example_com` for the spec's example — and every
file a run writes has the path
`{root}/{sanitize(mailbox)}/{id}_{sanitize(subject)}.eml`, where the
subject falls back to the fixed label `No_Subject` when the message has
none. -/
theorem C6_path_layout :
    output_root "mail.example.com" "a.b@example.com"
        = "mail_example_com_a_b_example_com" ∧
    ∀ (w : World) (raw : Inputs) (p : String) (b : Bytes),
      (p, b) ∈ writeEvents (main w raw) →
      ∃ (mb num : String) (so : Option String), w.subjectR b = Except.ok so ∧
        p = eml_path
          (output_root (pyStrip raw.server) (pyStrip raw.username)
            ++ "/" ++ sanitize_filename mb)
          num (so.getD "No_Subject") := by
  constructor
  · decide
  · intro w raw p b h
    have hcw := connect_to_imap_writes w (pyStrip raw.server)
      (pyOrDefault (pyStrip raw.port) "993") (pyStrip raw.username) (pyStrip raw.password)
    have hlw := list_mailboxes_writes w
    have hgw := logout_events_writes w
    rcases hfst : (connect_to_imap w (pyStrip raw.server)
        (pyOrDefault (pyStrip raw.port) "993") (pyStrip raw.username)
        (pyStrip raw.password)).1 with _ | _
    · simp only [main, get_user_inputs] at h
      rw [if_pos hfst] at h
      rw [writeEvents_append, writeEvents_append, hcw] at h
      simp [writeEvents] at h
    · simp only [main, get_user_inputs] at h
      rw [if_neg (by simp [hfst])] at h
      by_cases hL : (list_mailboxes w).1 = []
      · rw [if_pos hL] at h
        rw [writeEvents_append, writeEvents_append, writeEvents_append,
            hcw, hlw] at h
        simp [writeEvents] at h
      · rw [if_neg hL] at h
        rw [writeEvents_append, writeEvents_append, writeEvents_append,
            writeEvents_append, hcw, hlw, hgw] at h
        simp only [writeEvents, List.filterMap_cons, List.filterMap_nil,
          List.append_nil, List.nil_append] at h
        exact run_mailboxes_shape w
          (output_root (pyStrip raw.server) (pyStrip raw.username))
          (list_mailboxes w).1 p b h

/-- Witness for C6: in the fully successful demo world the single
written file sits at the spec's example path. -/
theorem C6_witness :
    output_root "mail.example.com" "a.b@example.com"
        = "mail_example_com_a_b_example_com" ∧
    ∃ (mb num : String) (so : Option String),
      wDemo.subjectR [72, 105] = Except.ok so ∧
      "mail_example_com_a_b_example_com/INBOX/1_Hello_World.eml" = eml_path
        (output_root (pyStrip rawD.server) (pyStrip rawD.username)
          ++ "/" ++ sanitize_filename mb)
        num (so.getD "No_Subject") :=
  ⟨C6_path_layout.1,
   C6_path_layout.2 wDemo rawD
     "mail_example_com_a_b_example_com/INBOX/1_Hello_World.eml" [72, 105]
     (by decide)⟩

end Imap2Eml
